import Mathlib

/-
Verification of the retrieval-augmented-search pipeline of the cwm_qna
repository.  The Python sources under src/ are shallowly embedded as
executable Lean definitions: pure functions become Lean functions, the
vector store becomes an explicit list-of-points state, the external
collaborators (text splitter, embedding service, qdrant client transport,
the Python string hash) become function parameters, and fallible calls
become Except values or an explicit per-call failure oracle.
-/

namespace CwmQna

/-! ## Python string primitives

Helpers mirroring the Python string operations used by the sources.
Strings are handled as their character lists; String.mk rebuilds a string
from a character list.
-/

/-- Whitespace in the sense of Python str.strip and of the regex class \s
(ASCII range: space, tab, newline, carriage return, vertical tab, form feed). -/
def pyIsSpace (c : Char) : Bool :=
  c = ' ' || c = '\t' || c = '\n' || c = '\r' || c = '\x0b' || c = '\x0c'

/-- Python str.strip on a character list: drop leading and trailing whitespace. -/
def pyStripList (cs : List Char) : List Char :=
  ((cs.dropWhile pyIsSpace).reverse.dropWhile pyIsSpace).reverse

/-- Python text.strip(). -/
def pyStrip (s : String) : String :=
  String.mk (pyStripList s.toList)

/-- Python text.lower() (ASCII case folding, which covers every string the
sources compare). -/
def pyLower (s : String) : String :=
  String.mk (s.toList.map Char.toLower)

/-- Containment of one character list in another, scanning left to right. -/
def listContains (sub : List Char) (s : List Char) : Bool :=
  match s with
  | [] => sub.isEmpty
  | _ :: t => sub.isPrefixOf s || listContains sub t

/-- Python substring containment: sub in s. -/
def containsStr (s sub : String) : Bool :=
  listContains sub.toList s.toList

/-- Python s.startswith(sub). -/
def startsWithStr (s sub : String) : Bool :=
  sub.toList.isPrefixOf s.toList

/-- Python s.endswith(sub). -/
def endsWithStr (s sub : String) : Bool :=
  sub.toList.isSuffixOf s.toList

/-- Python s.strip(chars) for a single strip character: drop it from both ends. -/
def pyStripChar (ch : Char) (s : String) : String :=
  String.mk (((s.toList.dropWhile (· = ch)).reverse.dropWhile (· = ch)).reverse)

/-- Decimal digits of a natural number, with explicit fuel (always given
one more unit than the number, plenty for its digit count) so that the
definition is structurally recursive. -/
def natToDigits (fuel : Nat) (n : Nat) : List Char :=
  match fuel with
  | 0 => []
  | fuel + 1 =>
      if n < 10 then [Char.ofNat (48 + n)]
      else natToDigits fuel (n / 10) ++ [Char.ofNat (48 + n % 10)]

/-- Python str(n) for a natural number. -/
def natToString (n : Nat) : String :=
  String.mk (natToDigits (n + 1) n)

/-! ## Configuration (src/config.py)

Module-level constants of config.py that the claims reference. -/

/-- COLLECTION_NAME = "knowledge_base" (src/config.py line 18). -/
def COLLECTION_NAME : String := "knowledge_base"

/-- SEARCH_LIMIT = 5 (src/config.py line 25). -/
def SEARCH_LIMIT : Nat := 5

/-- SIMILARITY_THRESHOLD = 0.7 (src/config.py line 26); similarity scores are
embedded as rationals. -/
def SIMILARITY_THRESHOLD : ℚ := 7/10

/-! ## Point identity (src/qdrant_manager.py lines 81-90 and
src/document_processor.py line 99)

Both sites compute abs(hash(f"{filename}_{page_number}_{chunk_number}")) % (2**63).
The Python builtin hash on strings is embedded as a function parameter
h : String → ℤ (it is an arbitrary integer-valued hash); abs becomes
Int.natAbs and the modulus stays 2^63. -/

/-- QdrantClientManager._generate_point_id, also the inline id expression of
DocumentProcessor.store_vectors: the id string is
f"{filename}_{page_number}_{chunk_number}" and the id is
abs(hash(id_string)) % (2**63). -/
def generate_point_id (h : String → ℤ) (filename : String)
    (page_number chunk_number : Nat) : Nat :=
  (h (filename ++ "_" ++ toString page_number ++ "_" ++ toString chunk_number)).natAbs % 2 ^ 63

/-! ## Collection setup (src/document_processor.py lines 30-40,
src/qdrant_manager.py lines 29-50)

The qdrant collection list is embedded as a list of named configurations.
DocumentProcessor._setup_collection and QdrantClientManager._create_collection
have the same control flow: list the collections, and create one with
size 1536 and cosine distance only when no collection carries the target
name.  Neither function inspects the configuration of an existing
collection, and neither has an error path of its own. -/

/-- Distance metric of a qdrant collection. -/
inductive Distance where
  | cosine
  | euclid
  | dot
deriving DecidableEq, Repr

/-- Named collection configuration as visible through get_collections. -/
structure Collection where
  name : String
  dim : Nat
  distance : Distance
deriving DecidableEq, Repr

/-- DocumentProcessor._setup_collection (and the identically structured
QdrantClientManager._create_collection): create the collection with
size 1536 and Distance.COSINE when the name is absent, otherwise change
nothing. -/
def setup_collection (cols : List Collection) : List Collection :=
  if cols.any (fun c => c.name = COLLECTION_NAME) then cols
  else cols ++ [⟨COLLECTION_NAME, 1536, Distance.cosine⟩]

/-- Modelled from the spec: the ensure_collection contract of spec section 4.3,
which the repository does not implement anywhere under src/ — create if absent,
no-op when the existing configuration is compatible with (1536, cosine), and a
ConfigMismatch error (here Except.error) when an existing collection differs in
dimensionality or metric.  Stated only to be compared with setup_collection. -/
def ensure_collection_spec (cols : List Collection) : Except Unit (List Collection) :=
  match cols.find? (fun c => c.name = COLLECTION_NAME) with
  | none => Except.ok (cols ++ [⟨COLLECTION_NAME, 1536, Distance.cosine⟩])
  | some c => if c.dim = 1536 ∧ c.distance = Distance.cosine
      then Except.ok cols else Except.error ()

/-! ## Text cleanup (src/document_searcher.py lines 27-34)

DocumentSearcher.clean_text strips the text, removes one trailing bare
number together with the whitespace before it (the regex \s*\d+\s*$ applied
once by re.sub, which on a stripped string removes the maximal trailing
digit run and the maximal whitespace run before it), and collapses every
run of three or more newlines to exactly two newlines (the regex \n{3,}
replaced by two newlines). -/

/-- Removal of the suffix matching \s*\d+\s*$ from an already stripped
character list: when the list ends in at least one digit, drop the trailing
digit run and the whitespace run before it; otherwise nothing matches. -/
def stripTrailingNumber (cs : List Char) : List Char :=
  let r := cs.reverse
  if (r.takeWhile Char.isDigit).isEmpty then cs
  else ((r.dropWhile Char.isDigit).dropWhile pyIsSpace).reverse

/-- Replacement of every maximal run of three or more newlines by exactly
two newlines. -/
def collapseNewlines : List Char → List Char
  | '\n' :: '\n' :: '\n' :: rest => collapseNewlines ('\n' :: '\n' :: rest)
  | c :: rest => c :: collapseNewlines rest
  | [] => []
termination_by cs => cs.length
decreasing_by all_goals simp_arith

/-- DocumentSearcher.clean_text. -/
def clean_text (s : String) : String :=
  String.mk (collapseNewlines (stripTrailingNumber (pyStripList s.toList)))

/-! ## Boilerplate patterns (src/document_searcher.py lines 48-57)

Each regex of metadata_patterns is embedded as a decidable predicate on the
character list of the stripped candidate text.  The code always applies the
patterns to text.strip(); a stripped string has no trailing newline, so the
anchor $ of the Python regexes coincides with the end of the input, and ^
is the start of the input (re.MULTILINE is off). -/

/-- Regex r"^The Mother taking a class" (a prefix match, no end anchor). -/
def matchMotherClass (cs : List Char) : Bool :=
  "The Mother taking a class".toList.isPrefixOf cs

/-- Regex r"^Page \d+$". -/
def matchPageNumber (cs : List Char) : Bool :=
  "Page ".toList.isPrefixOf cs &&
    (let ds := cs.drop 5
     !ds.isEmpty && ds.all Char.isDigit)

/-- Regex r"^Chapter \d+$". -/
def matchChapterNumber (cs : List Char) : Bool :=
  "Chapter ".toList.isPrefixOf cs &&
    (let ds := cs.drop 8
     !ds.isEmpty && ds.all Char.isDigit)

/-- Regex r"^\d{1,2}/\d{1,2}/\d{4}$": since a slash is not a digit, a match
decomposes uniquely as a digit run of length one or two, a slash, a digit
run of length one or two, a slash, and exactly four digits reaching the end. -/
def matchDateStamp (cs : List Char) : Bool :=
  let d1 := cs.takeWhile Char.isDigit
  match cs.dropWhile Char.isDigit with
  | '/' :: rest1 =>
      let d2 := rest1.takeWhile Char.isDigit
      (match rest1.dropWhile Char.isDigit with
       | '/' :: rest2 =>
           (decide (1 ≤ d1.length) && decide (d1.length ≤ 2)) &&
           (decide (1 ≤ d2.length) && decide (d2.length ≤ 2)) &&
           (decide (rest2.length = 4) && rest2.all Char.isDigit)
       | _ => false)
  | _ => false

/-- Regex r"^Table of Contents$". -/
def matchToC (cs : List Char) : Bool :=
  decide (cs = "Table of Contents".toList)

/-- Regex r"^Questions and Answers$". -/
def matchQandA (cs : List Char) : Bool :=
  decide (cs = "Questions and Answers".toList)

/-- Regex r"^[\d\s\-—]*$": only digits, whitespace, dashes and em-dashes
(the empty string included). -/
def matchNumDash (cs : List Char) : Bool :=
  cs.all (fun c => c.isDigit || pyIsSpace c || c = '-' || c = '—')

/-- Helper for the parenthetical pattern: after the opening parenthesis,
either the closing parenthesis arrives followed by whitespace only, or the
current character is no newline (the regex dot) and the scan goes on. -/
def parenTail : List Char → Bool
  | [] => false
  | c :: rest => (decide (c = ')') && rest.all pyIsSpace) ||
      (decide (c ≠ '\n') && parenTail rest)

/-- Regex r"^\s*\(.*\)\s*$": leading whitespace, an opening parenthesis, a
newline-free body, a closing parenthesis, trailing whitespace. -/
def matchParenOnly (cs : List Char) : Bool :=
  match cs.dropWhile pyIsSpace with
  | '(' :: rest => parenTail rest
  | _ => false

/-- Disjunction of the metadata_patterns list in source order: the filter
loop returns False exactly when some pattern matches the stripped text. -/
def metadataMatch (cs : List Char) : Bool :=
  matchMotherClass cs || matchPageNumber cs || matchChapterNumber cs ||
  matchDateStamp cs || matchToC cs || matchQandA cs || matchNumDash cs ||
  matchParenOnly cs

/-! ## Content validity (src/document_searcher.py lines 37-67)

DocumentSearcher.is_valid_content: first the Mother-specific veto (applied
when the query mentions mother case-insensitively — the second disjunct of
the Python condition, "The Mother" in query, implies the first), then the
minimum length check on the stripped text, then the pattern loop.  The
isinstance(text, dict) branch of the source is unreachable, because the
function is only ever called on the payload text string, and is therefore
not part of the embedding. -/

/-- Condition under which the Mother veto fires and the candidate is
rejected before any other check. -/
def motherVeto (query text : String) : Bool :=
  ((containsStr (pyLower query) "mother" || containsStr query "The Mother") &&
      containsStr (pyLower text) "mother") &&
    !containsStr text "The Mother"

/-- Length and boilerplate checks of is_valid_content, lines 45-67. -/
def contentChecks (text : String) : Bool :=
  if (pyStripList text.toList).length < 50 then false
  else !metadataMatch (pyStripList text.toList)

/-- DocumentSearcher.is_valid_content. -/
def is_valid_content (text query : String) : Bool :=
  if motherVeto query text then false
  else contentChecks text

/-! ## Search (src/document_searcher.py lines 70-119)

DocumentSearcher.search: embed the query (external), fetch
(limit or SEARCH_LIMIT) * 2 candidates from the store at threshold
(score_threshold or SIMILARITY_THRESHOLD), filter by is_valid_content,
clean and format the survivors in order, and return the first
(limit or SEARCH_LIMIT) of them.  The qdrant search call is embedded as a
function parameter from requested limit and threshold to the returned
scored points; the Python or-fallback on the two optional arguments treats
None and zero alike. -/

/-- Scored point as returned by the qdrant search call, with the payload
fields the searcher reads (page_header is an optional payload key). -/
structure ScoredPoint where
  score : ℚ
  text : String
  filename : String
  page_number : Nat
  page_header : Option String
deriving DecidableEq, Repr

/-- Formatted result dictionary built by DocumentSearcher.search for one
surviving candidate. -/
structure CleanResult where
  filename : String
  page_number : Nat
  score : ℚ
  text : String
deriving DecidableEq, Repr

/-- Python expression x or d for an optional integer argument: None and 0
both fall back to the default. -/
def pyOrNat (x : Option Nat) (d : Nat) : Nat :=
  match x with
  | some n => if n = 0 then d else n
  | none => d

/-- Python expression x or d for an optional float argument: None and 0.0
both fall back to the default. -/
def pyOrQ (x : Option ℚ) (d : ℚ) : ℚ :=
  match x with
  | some q => if q = 0 then d else q
  | none => d

/-- Limit passed to the qdrant search call: (limit or SEARCH_LIMIT) * 2,
line 78 of document_searcher.py. -/
def requested_limit (limit : Option Nat) : Nat :=
  pyOrNat limit SEARCH_LIMIT * 2

/-- Python '\n\n'.join(part for part in parts if part). -/
def joinParts (parts : List String) : String :=
  String.intercalate "\n\n" (parts.filter (fun p => p ≠ ""))

/-- Formatting of one surviving candidate, lines 86-114: clean the text,
build the citation line, and when a nonempty page_header is present strip
it of whitespace and quotes, remove a duplicate leading occurrence from the
text, and emit it as a middle part. -/
def formatResult (r : ScoredPoint) : CleanResult :=
  let text := clean_text r.text
  let citation := "From " ++ r.filename ++ ", Page " ++ natToString r.page_number ++ "\n\n"
  match r.page_header with
  | some ph =>
      if ph ≠ "" then
        let header := pyStripChar '"' (pyStrip ph)
        let text2 := if startsWithStr text header
          then pyStrip (String.mk (text.toList.drop header.length))
          else text
        ⟨r.filename, r.page_number, r.score, joinParts [citation, header, text2]⟩
      else ⟨r.filename, r.page_number, r.score, joinParts [citation, text]⟩
  | none => ⟨r.filename, r.page_number, r.score, joinParts [citation, text]⟩

/-- DocumentSearcher.search. -/
def search (store : Nat → ℚ → List ScoredPoint) (query : String)
    (limit : Option Nat) (score_threshold : Option ℚ) : List CleanResult :=
  let results := store (requested_limit limit) (pyOrQ score_threshold SIMILARITY_THRESHOLD)
  let filtered_results := results.foldl
    (fun acc r => if is_valid_content r.text query then acc ++ [formatResult r] else acc) []
  filtered_results.take (pyOrNat limit SEARCH_LIMIT)

/-! ## Ingestion pipeline (src/document_processor.py)

The pipeline state is explicit: the vector store is a list of points
(id plus payload), a document is a filename with its ordered page texts,
the text splitter of langchain is a function parameter, the Python string
hash is a function parameter, and the combined failure of one
get_embeddings plus store_vectors call is an oracle indexed by the number
of calls made so far (equation: a batch call fails exactly when the oracle
holds at its index).  The scroll call of _get_processed_files is embedded
by its result: an Except value that is an error when the store cannot be
read and otherwise carries the scrolled points. -/

/-- Chunk dictionary built by DocumentProcessor.create_chunks: the chunk
text with its metadata. -/
structure Chunk where
  text : String
  filename : String
  page_number : Nat
  chunk_number : Nat
deriving DecidableEq, Repr

/-- Stored point: the id and the payload written by store_vectors
(text, filename, page_number, chunk_number — the Chunk fields). -/
structure Point where
  id : Nat
  payload : Chunk
deriving DecidableEq, Repr

/-- Store contents as a list of points with pairwise distinct ids
maintained by upsert. -/
abbrev Store := List Point

/-- Upsert of one point: overwrite the point carrying the same id, append
otherwise. -/
def upsertOne (s : Store) (p : Point) : Store :=
  if s.any (fun q => q.id = p.id) then
    s.map (fun q => if q.id = p.id then p else q)
  else s ++ [p]

/-- Qdrant upsert of a batch of points. -/
def upsert (s : Store) (ps : List Point) : Store :=
  ps.foldl upsertOne s

/-- Points built by store_vectors for a batch of chunks, each with the
deterministic id of generate_point_id (the same formula is inlined at
line 99 of document_processor.py). -/
def mkPoints (h : String → ℤ) (chunks : List Chunk) : List Point :=
  chunks.map (fun c => ⟨generate_point_id h c.filename c.page_number c.chunk_number, c⟩)

/-- Document on disk: a PDF filename and the extracted text of each page in
order. -/
structure Doc where
  name : String
  pages : List String
deriving DecidableEq, Repr

/-- DocumentProcessor.process_pdf: yield the zero-based page index and text
of every page whose text is not whitespace-only. -/
def process_pdf (d : Doc) : List (Nat × String) :=
  d.pages.enum.filter (fun pt => pyStrip pt.2 ≠ "")

/-- DocumentProcessor.create_chunks: split the page text and tag each piece
with filename, page number and one-based chunk number. -/
def create_chunks (split : String → List String) (text : String)
    (filename : String) (page_number : Nat) : List Chunk :=
  (split text).enum.map (fun ic => ⟨ic.2, filename, page_number, ic.1 + 1⟩)

/-- DocumentProcessor._get_processed_files: the filenames of the scrolled
points, and the empty set when the scroll call raises (the except branch
returns set()). -/
def processedOf (scrollRes : Except String (List Point)) : List String :=
  match scrollRes with
  | Except.error _ => []
  | Except.ok pts => pts.map (fun p => p.payload.filename)

/-- Scroll result read by _get_processed_files from a healthy store:
the scroll call passes limit=10000, so only the first 10000 points are
visible to the dedup step. -/
def scrollStore (s : Store) : List Point :=
  s.take 10000

/-- Directory listing filtered to PDF files, line 123 of
document_processor.py. -/
def currentFiles (docs : List Doc) : List String :=
  (docs.map (fun d => d.name)).filter (fun f => endsWithStr f ".pdf")

/-- Set difference current_files - processed_files of line 125. -/
def newFiles (scrollRes : Except String (List Point)) (docs : List Doc) : List String :=
  (currentFiles docs).filter (fun f => !(processedOf scrollRes).contains f)

/-- Documents of the directory selected for processing (the filesystem
guarantees pairwise distinct filenames, so iterating the matching documents
agrees with iterating the new_files set). -/
def newDocs (scrollRes : Except String (List Point)) (docs : List Doc) : List Doc :=
  docs.filter (fun d => (newFiles scrollRes docs).contains d.name)

/-- Running state of the process_documents loop: the pending chunk queue
(total_chunks), the success counter (total_processed), the store, and the
log of every batch call made so far with its batch and outcome.  The index
of the next call is the length of the log. -/
structure PState where
  queue : List Chunk
  processed : Nat
  store : Store
  calls : List (List Chunk × Bool)

/-- One combined get_embeddings plus store_vectors call on the first n
queued chunks, lines 150-159 (and 162-168) of document_processor.py: when
the call fails the handler only logs and the queue, counter and store are
left as they were; on success the batch is written, counted, and removed
from the queue. -/
def doCall (h : String → ℤ) (fails : Nat → Bool) (n : Nat) (st : PState) : PState :=
  let batch := st.queue.take n
  if fails st.calls.length then
    { st with calls := st.calls ++ [(batch, false)] }
  else
    { queue := st.queue.drop n
      processed := st.processed + batch.length
      store := upsert st.store (mkPoints h batch)
      calls := st.calls ++ [(batch, true)] }

/-- Body of the per-page loop, lines 140-159: append the chunks of the page
to the queue, then, when the queue holds at least BATCH_SIZE chunks, make
one batch call on the first BATCH_SIZE of them.  The check runs once per
page, exactly as in the source. -/
def pageStep (B : Nat) (h : String → ℤ) (fails : Nat → Bool)
    (st : PState) (chunks : List Chunk) : PState :=
  let st1 := { st with queue := st.queue ++ chunks }
  if B ≤ st1.queue.length then doCall h fails B st1 else st1

/-- Final block, lines 162-168: one call on the whole remaining queue when
it is nonempty. -/
def finalStep (h : String → ℤ) (fails : Nat → Bool) (st : PState) : PState :=
  if st.queue = [] then st else doCall h fails st.queue.length st

/-- Chunk lists produced page by page over the selected documents: for each
non-whitespace page of each new document, the chunks of that page (the
redundant truthiness test on the yielded text is kept). -/
def allPageChunks (split : String → List String) (nds : List Doc) : List (List Chunk) :=
  nds.flatMap (fun d =>
    (process_pdf d).map (fun pt =>
      if pt.2 ≠ "" then create_chunks split pt.2 d.name (pt.1 + 1) else []))

/-- Full run of DocumentProcessor.process_documents as a state: the dedup
gate first (empty new_files returns at once with nothing done), then the
page loop, then the final batch. -/
def processState (scrollRes : Except String (List Point))
    (split : String → List String) (h : String → ℤ) (fails : Nat → Bool)
    (B : Nat) (docs : List Doc) (store0 : Store) : PState :=
  if newFiles scrollRes docs = [] then ⟨[], 0, store0, []⟩
  else finalStep h fails
    ((allPageChunks split (newDocs scrollRes docs)).foldl (pageStep B h fails)
      ⟨[], 0, store0, []⟩)

/-- DocumentProcessor.process_documents: the returned chunk count and the
resulting store. -/
def process_documents (scrollRes : Except String (List Point))
    (split : String → List String) (h : String → ℤ) (fails : Nat → Bool)
    (B : Nat) (docs : List Doc) (store0 : Store) : Nat × Store :=
  let st := processState scrollRes split h fails B docs store0
  (st.processed, st.store)

/-- Total size of the successfully written batches in a call log. -/
def sumSuccessful (calls : List (List Chunk × Bool)) : Nat :=
  calls.foldl (fun a c => if c.2 then a + c.1.length else a) 0

/-- Bookkeeping predicate on a call log: every chunk of a failed batch call
either shows up in a later call of the log or still sits in the pending
queue. -/
def callsOk (calls : List (List Chunk × Bool)) (queue : List Chunk) : Prop :=
  ∀ pre b post, calls = pre ++ ((b, false) :: post) → ∀ ch ∈ b,
    (∃ e ∈ post, ch ∈ e.1) ∨ ch ∈ queue

/-- Invariant of the process_documents loop: the success counter equals the
total size of the successful batches, and every failed batch is still
accounted for. -/
def PInv (st : PState) : Prop :=
  st.processed = sumSuccessful st.calls ∧ callsOk st.calls st.queue

/-! ## Citation grouping (src/app.py lines 140-194)

display_results reads each result through the qdrant attributes
(result.payload and result.score), so the grouping logic is embedded over
ScoredPoint.  The pure content of the display loop: drop the primary
(first) result, partition the rest by filename in first-appearance order
(the Python dict preserves insertion order), sort each partition by page
number with a stable ascending sort, and merge runs of consecutive page
numbers, each displayed group carrying the label Page N or
Pages N, M, ... and the score of its first member. -/

/-- Displayed group: source document, merged page numbers, the pages label
of the expander title, the representative score (score of the first
member), and the member results in order. -/
structure CitationGroup where
  filename : String
  pages : List Nat
  label : String
  score : ℚ
  members : List ScoredPoint
deriving DecidableEq, Repr

/-- Partition by filename preserving first-appearance order, lines 141-146:
the insertion-ordered dict grouped_results. -/
def groupByFilename (rs : List ScoredPoint) : List (String × List ScoredPoint) :=
  rs.foldl (fun acc r =>
    if acc.any (fun e => e.1 = r.filename) then
      acc.map (fun e => if e.1 = r.filename then (e.1, e.2 ++ [r]) else e)
    else acc ++ [(r.filename, [r])]) []

/-- Stable insertion into a list sorted ascending by page number. -/
def insertByPage (r : ScoredPoint) : List ScoredPoint → List ScoredPoint
  | [] => [r]
  | x :: xs => if x.page_number < r.page_number then x :: insertByPage r xs
      else r :: x :: xs

/-- Stable ascending sort by page number, line 151
(doc_results.sort(key=lambda x: x.payload.page_number)). -/
def sortByPage (rs : List ScoredPoint) : List ScoredPoint :=
  rs.foldr insertByPage []

/-- Pages label of lines 164 and 185: Page N for a single page, otherwise
Pages followed by the comma-joined page numbers. -/
def pagesLabel (pages : List Nat) : String :=
  "Page" ++ (if pages.length = 1 then " " else "s ") ++
    String.intercalate ", " (pages.map natToString)

/-- Group flush of lines 162-174 and 184-194: emit the current group with
its label and the score of its first member; an empty current group emits
nothing. -/
def flushGroup (doc_name : String) (groups : List CitationGroup)
    (current : List ScoredPoint) (pages : List Nat) : List CitationGroup :=
  match current with
  | [] => groups
  | c :: _ => groups ++ [⟨doc_name, pages, pagesLabel pages, c.score, current⟩]

/-- Merge scan of lines 154-194 over one sorted partition: a page number
that does not extend the last page by exactly one flushes the current group
and starts a new one. -/
def mergeScan (doc_name : String) (groups : List CitationGroup)
    (current : List ScoredPoint) (pages : List Nat) (last : Option Nat) :
    List ScoredPoint → List CitationGroup
  | [] => flushGroup doc_name groups current pages
  | r :: rest =>
      match last with
      | some lp =>
          if r.page_number ≠ lp + 1 then
            mergeScan doc_name (flushGroup doc_name groups current pages)
              [r] [r.page_number] (some r.page_number) rest
          else
            mergeScan doc_name groups (current ++ [r]) (pages ++ [r.page_number])
              (some r.page_number) rest
      | none =>
          mergeScan doc_name groups (current ++ [r]) (pages ++ [r.page_number])
            (some r.page_number) rest

/-- Groups displayed for one document partition. -/
def groupsOfDoc (doc_name : String) (rs : List ScoredPoint) : List CitationGroup :=
  mergeScan doc_name [] [] [] none (sortByPage rs)

/-- Grouping performed by display_results over the non-primary results:
results[1:] partitioned by filename, each partition sorted by page number
and merged into consecutive ranges. -/
def display_groups (results : List ScoredPoint) : List CitationGroup :=
  (groupByFilename (results.drop 1)).flatMap (fun e => groupsOfDoc e.1 e.2)

/-- Witness store for C1: result of a first run over one PDF with one
non-whitespace page, no failures and an empty initial store. -/
def c1RunStore : Store :=
  (process_documents (Except.ok []) (fun t => [t]) (fun _ => (0 : ℤ))
    (fun _ => false) 8 [⟨"a.pdf", ["hello"]⟩] []).2

/-! # Supporting lemmas -/

/-- Boolean substring containment agrees with the infix relation. -/
lemma listContains_iff {sub s : List Char} : listContains sub s = true ↔ sub <:+: s := by
  induction s with
  | nil =>
      simp [listContains, List.isEmpty_iff]
  | cons c t ih =>
      simp [listContains, Bool.or_eq_true, List.isPrefixOf_iff_prefix, ih,
        List.infix_cons_iff]

/-- Containment is monotone under an infix of the pattern: when sub occurs in
s, so does every infix of sub. -/
lemma containsStr_trans {s sub sub2 : String}
    (hinf : sub2.toList <:+: sub.toList) (h : containsStr s sub = true) :
    containsStr s sub2 = true := by
  unfold containsStr at h ⊢
  exact listContains_iff.mpr (hinf.trans (listContains_iff.mp h))

/-- Containment transfers to the lowercased strings. -/
lemma containsStr_lower {s sub : String} (h : containsStr s sub = true) :
    containsStr (pyLower s) (String.mk (sub.toList.map Char.toLower)) = true := by
  unfold containsStr at h ⊢
  exact listContains_iff.mpr ((listContains_iff.mp h).map Char.toLower)

/-- Split of a snoc list at an arbitrary cons position. -/
lemma snoc_split {α : Type} (l : List α) (x : α) (pre : List α) (y : α)
    (post : List α) (h : l ++ [x] = pre ++ y :: post) :
    (pre = l ∧ y = x ∧ post = []) ∨
      ∃ post2, post = post2 ++ [x] ∧ l = pre ++ y :: post2 := by
  rcases post.eq_nil_or_concat with rfl | ⟨post2, z, rfl⟩
  · left
    have h2 := List.append_inj' h (by simp)
    exact ⟨h2.1.symm, by simpa using h2.2.symm, rfl⟩
  · right
    rw [List.concat_eq_append,
      show pre ++ y :: (post2 ++ [z]) = (pre ++ y :: post2) ++ [z] by simp] at h
    have h2 := List.append_inj' h (by simp)
    exact ⟨post2, by simp [List.concat_eq_append, h2.2], h2.1⟩

/-- Accumulating loop of DocumentSearcher.search as filter plus map. -/
lemma foldl_filter_map (q : String) (l : List ScoredPoint) (acc : List CleanResult) :
    l.foldl (fun acc r => if is_valid_content r.text q then acc ++ [formatResult r] else acc) acc
      = acc ++ (l.filter (fun r => is_valid_content r.text q)).map formatResult := by
  induction l generalizing acc with
  | nil => simp
  | cons r rest ih =>
      by_cases hv : is_valid_content r.text q <;>
        simp [List.filter_cons, hv, ih, List.append_assoc]

/-- Closed form of DocumentSearcher.search. -/
lemma search_eq (st : Nat → ℚ → List ScoredPoint) (q : String)
    (limit : Option Nat) (thr : Option ℚ) :
    search st q limit thr =
      (((st (requested_limit limit) (pyOrQ thr SIMILARITY_THRESHOLD)).filter
          (fun r => is_valid_content r.text q)).map formatResult).take
        (pyOrNat limit SEARCH_LIMIT) := by
  simp only [search]
  rw [foldl_filter_map]
  rfl

/-- Every result returned by search is the formatting of a store candidate
whose text passed is_valid_content. -/
lemma search_mem {st : Nat → ℚ → List ScoredPoint} {q : String}
    {limit : Option Nat} {thr : Option ℚ} {x : CleanResult}
    (hx : x ∈ search st q limit thr) :
    ∃ r ∈ st (requested_limit limit) (pyOrQ thr SIMILARITY_THRESHOLD),
      is_valid_content r.text q = true ∧ x = formatResult r := by
  rw [search_eq] at hx
  have hx2 := List.mem_of_mem_take hx
  obtain ⟨r, hr, rfl⟩ := List.mem_map.mp hx2
  obtain ⟨hr1, hr2⟩ := List.mem_filter.mp hr
  exact ⟨r, hr1, hr2, rfl⟩

/-- Sum of the successful batch sizes over an extended log. -/
lemma sumSuccessful_append (l : List (List Chunk × Bool)) (x : List Chunk × Bool) :
    sumSuccessful (l ++ [x]) = sumSuccessful l + (if x.2 then x.1.length else 0) := by
  unfold sumSuccessful
  rw [List.foldl_append]
  rcases x with ⟨b, flag⟩
  cases flag <;> simp

/-- Call log written by one batch call. -/
lemma doCall_calls (h : String → ℤ) (fails : Nat → Bool) (n : Nat) (st : PState) :
    (doCall h fails n st).calls =
      st.calls ++ [(st.queue.take n, !fails st.calls.length)] := by
  unfold doCall
  by_cases hf : fails st.calls.length <;> simp [hf]

/-- On a failed batch call the queue, the counter and the store are left
untouched; only the log grows. -/
lemma doCall_fail (h : String → ℤ) (fails : Nat → Bool) (n : Nat) (st : PState)
    (hf : fails st.calls.length = true) :
    (doCall h fails n st).queue = st.queue ∧
    (doCall h fails n st).processed = st.processed ∧
    (doCall h fails n st).store = st.store := by
  unfold doCall
  simp [hf]

/-- One batch call preserves the loop invariant. -/
lemma pinv_doCall (h : String → ℤ) (fails : Nat → Bool) (n : Nat) (st : PState)
    (hinv : PInv st) : PInv (doCall h fails n st) := by
  obtain ⟨hcount, hok⟩ := hinv
  unfold doCall
  by_cases hf : fails st.calls.length
  · simp only [hf, if_pos]
    constructor
    · simpa [sumSuccessful_append] using hcount
    · intro pre b post heq ch hch
      rcases snoc_split _ _ _ _ _ heq with ⟨hpre, hyx, hpost⟩ | ⟨post2, hpost, hl⟩
      · right
        have hb : b = st.queue.take n := congrArg Prod.fst hyx
        exact List.take_subset n st.queue (hb ▸ hch)
      · rcases hok pre b post2 hl ch hch with ⟨e, he, hche⟩ | hqu
        · exact Or.inl ⟨e, by simp [hpost, he], hche⟩
        · exact Or.inr hqu
  · simp only [hf, if_neg, Bool.false_eq_true, not_false_iff]
    constructor
    · simp [sumSuccessful_append, hcount]
    · intro pre b post heq ch hch
      rcases snoc_split _ _ _ _ _ heq with ⟨hpre, hyx, hpost⟩ | ⟨post2, hpost, hl⟩
      · exact absurd (congrArg Prod.snd hyx) (by simp)
      · rcases hok pre b post2 hl ch hch with ⟨e, he, hche⟩ | hqu
        · exact Or.inl ⟨e, by simp [hpost, he], hche⟩
        · rcases List.mem_append.mp
            ((List.take_append_drop n st.queue).symm ▸ hqu) with htk | hdr
          · exact Or.inl ⟨(st.queue.take n, true), by simp [hpost], htk⟩
          · exact Or.inr hdr

/-- Appending fresh chunks to the queue preserves the loop invariant. -/
lemma pinv_queue_append (st : PState) (chunks : List Chunk) (hinv : PInv st) :
    PInv { st with queue := st.queue ++ chunks } := by
  obtain ⟨hcount, hok⟩ := hinv
  refine ⟨hcount, ?_⟩
  intro pre b post heq ch hch
  rcases hok pre b post heq ch hch with he | hqu
  · exact Or.inl he
  · exact Or.inr (List.mem_append_left chunks hqu)

/-- One iteration of the per-page loop preserves the loop invariant. -/
lemma pinv_pageStep (B : Nat) (h : String → ℤ) (fails : Nat → Bool)
    (st : PState) (chunks : List Chunk) (hinv : PInv st) :
    PInv (pageStep B h fails st chunks) := by
  unfold pageStep
  by_cases hB : B ≤ st.queue.length + chunks.length
  · simpa [hB] using pinv_doCall h fails B _ (pinv_queue_append st chunks hinv)
  · simpa [hB] using pinv_queue_append st chunks hinv

/-- The whole page loop preserves the loop invariant. -/
lemma pinv_foldl (B : Nat) (h : String → ℤ) (fails : Nat → Bool)
    (l : List (List Chunk)) (st : PState) (hinv : PInv st) :
    PInv (l.foldl (pageStep B h fails) st) := by
  induction l generalizing st with
  | nil => exact hinv
  | cons c rest ih => exact ih _ (pinv_pageStep B h fails st c hinv)

/-- The final batch call preserves the loop invariant. -/
lemma pinv_finalStep (h : String → ℤ) (fails : Nat → Bool) (st : PState)
    (hinv : PInv st) : PInv (finalStep h fails st) := by
  unfold finalStep
  by_cases hq : st.queue = []
  · simpa [hq] using hinv
  · simpa [hq] using pinv_doCall h fails st.queue.length st hinv

/-- The loop invariant holds at the end of every process_documents run. -/
lemma pinv_processState (scrollRes : Except String (List Point))
    (split : String → List String) (h : String → ℤ) (fails : Nat → Bool)
    (B : Nat) (docs : List Doc) (store0 : Store) :
    PInv (processState scrollRes split h fails B docs store0) := by
  have hinit : PInv ⟨[], 0, store0, []⟩ := by
    constructor
    · rfl
    · intro pre b post heq ch hch
      exact absurd heq.symm (by simp)
  unfold processState
  by_cases hnew : newFiles scrollRes docs = []
  · simpa [hnew] using hinit
  · simpa [hnew] using
      pinv_finalStep h fails _ (pinv_foldl B h fails _ _ hinit)

/-- Every chunk of a failed batch that is not the final one is submitted
again in a later batch call of the same run. -/
lemma resubmission (scrollRes : Except String (List Point))
    (split : String → List String) (h : String → ℤ) (fails : Nat → Bool)
    (B : Nat) (docs : List Doc) (store0 : Store) (pre : List (List Chunk × Bool))
    (b : List Chunk) (post : List (List Chunk × Bool))
    (heq : (processState scrollRes split h fails B docs store0).calls =
      pre ++ ((b, false) :: post))
    (hpost : post ≠ []) : ∀ ch ∈ b, ∃ e ∈ post, ch ∈ e.1 := by
  intro ch hch
  unfold processState at heq
  by_cases hnew : newFiles scrollRes docs = []
  · rw [if_pos hnew] at heq
    exact absurd heq.symm (by simp)
  · rw [if_neg hnew] at heq
    have hinit : PInv (⟨[], 0, store0, []⟩ : PState) := by
      constructor
      · rfl
      · intro pre2 b2 post2 heq2 ch2 hch2
        exact absurd heq2.symm (by simp)
    set st1 := (allPageChunks split (newDocs scrollRes docs)).foldl
      (pageStep B h fails) ⟨[], 0, store0, []⟩ with hst1
    have hinv : PInv st1 := pinv_foldl B h fails _ _ hinit
    unfold finalStep at heq
    by_cases hq : st1.queue = []
    · rw [if_pos hq] at heq
      rcases hinv.2 pre b post heq ch hch with he | hqu
      · exact he
      · rw [hq] at hqu
        exact absurd hqu (by simp)
    · rw [if_neg hq] at heq
      rw [doCall_calls, List.take_length] at heq
      rcases snoc_split _ _ _ _ _ heq with ⟨hpre, hyx, hpost2⟩ | ⟨post2, hp, hl⟩
      · exact absurd hpost2 hpost
      · rcases hinv.2 pre b post2 hl ch hch with ⟨e, he, hche⟩ | hqu
        · exact ⟨e, by simp [hp, he], hche⟩
        · exact ⟨(st1.queue, !fails st1.calls.length), by simp [hp], hqu⟩

/-! # Claims -/

/-- C2: the point id is a pure function of (filename, page_number,
chunk_number) — for every hash function, filename, page number and chunk
number two computations of the id agree, the id always lies in [0, 2^63),
and store_vectors assigns exactly this id to every chunk it writes. -/
theorem c2_point_id_pure_and_in_range (h : String → ℤ) (filename : String)
    (page_number chunk_number : Nat) :
    generate_point_id h filename page_number chunk_number =
      generate_point_id h filename page_number chunk_number ∧
    generate_point_id h filename page_number chunk_number < 2 ^ 63 ∧
    ∀ chunks : List Chunk, (mkPoints h chunks).map (fun p => p.id) =
      chunks.map (fun c => generate_point_id h c.filename c.page_number c.chunk_number) := by
  refine ⟨rfl, Nat.mod_lt _ (by positivity), ?_⟩
  intro chunks
  simp [mkPoints]

/-- Witness for C2 at a concrete hash function and metadata triple. -/
theorem c2_witness :
    generate_point_id (fun _ => (-5 : ℤ)) "doc.pdf" 3 1 =
      generate_point_id (fun _ => (-5 : ℤ)) "doc.pdf" 3 1 ∧
    generate_point_id (fun _ => (-5 : ℤ)) "doc.pdf" 3 1 < 2 ^ 63 :=
  ⟨(c2_point_id_pure_and_in_range (fun _ => (-5 : ℤ)) "doc.pdf" 3 1).1,
   (c2_point_id_pure_and_in_range (fun _ => (-5 : ℤ)) "doc.pdf" 3 1).2.1⟩

/-- C3 counterexample: a pre-existing collection named knowledge_base with
dimension 384 and euclidean distance is left exactly as it is and setup
completes without signalling anything, while the ensure_collection contract
of the spec would fail with ConfigMismatch — so the claim that setup fails
on a configuration mismatch is false on the code. -/
theorem c3_counterexample :
    setup_collection [⟨"knowledge_base", 384, Distance.euclid⟩] =
      [⟨"knowledge_base", 384, Distance.euclid⟩] ∧
    ensure_collection_spec [⟨"knowledge_base", 384, Distance.euclid⟩] =
      Except.error () := by
  constructor
  · rfl
  · rfl

/-- C3 amended: collection setup is non-destructive — whenever a collection
with the target name already exists, setup leaves the collection list
unchanged — but it performs no configuration check at all, so an existing
collection with a different dimensionality or metric is accepted without
any error. -/
theorem c3_setup_nondestructive_unchecked (cols : List Collection)
    (hex : ∃ c ∈ cols, c.name = COLLECTION_NAME) :
    setup_collection cols = cols := by
  obtain ⟨c, hc, hn⟩ := hex
  unfold setup_collection
  rw [if_pos]
  exact List.any_eq_true.mpr ⟨c, hc, by simpa using hn⟩

/-- Witness for C3 amended at a concrete mismatched collection list. -/
theorem c3_witness :
    setup_collection [⟨"knowledge_base", 384, Distance.dot⟩] =
      [⟨"knowledge_base", 384, Distance.dot⟩] :=
  c3_setup_nondestructive_unchecked _
    ⟨⟨"knowledge_base", 384, Distance.dot⟩, by simp, rfl⟩

/-- C9: None and the falsy zero values at the search interface fall back to
the configured defaults — search with limit 0 or None behaves exactly as
with SEARCH_LIMIT = 5, and search with score_threshold 0 or None behaves
exactly as with SIMILARITY_THRESHOLD = 0.7. -/
theorem c9_falsy_defaults (st : Nat → ℚ → List ScoredPoint) (q : String)
    (thr : Option ℚ) (limit : Option Nat) :
    search st q (some 0) thr = search st q none thr ∧
    search st q none thr = search st q (some SEARCH_LIMIT) thr ∧
    search st q limit (some 0) = search st q limit none ∧
    search st q limit none = search st q limit (some SIMILARITY_THRESHOLD) := by
  refine ⟨rfl, rfl, ?_, ?_⟩
  · unfold search pyOrQ
    norm_num
  · unfold search pyOrQ SIMILARITY_THRESHOLD
    norm_num

/-- Witness for C9: at a store that returns as many valid candidates as
asked, search with limit 0 and threshold 0 equals search with the default
arguments and returns 5 results, not an empty sequence. -/
theorem c9_witness :
    search (fun n _ => List.replicate n
        ⟨1, "This is a sufficiently long passage of plain text for the filter.",
          "doc.pdf", 1, none⟩) "what is peace" (some 0) (some 0) =
      search (fun n _ => List.replicate n
        ⟨1, "This is a sufficiently long passage of plain text for the filter.",
          "doc.pdf", 1, none⟩) "what is peace" (some SEARCH_LIMIT)
        (some SIMILARITY_THRESHOLD) ∧
    (search (fun n _ => List.replicate n
        ⟨1, "This is a sufficiently long passage of plain text for the filter.",
          "doc.pdf", 1, none⟩) "what is peace" (some 0) (some 0)).length = 5 := by
  constructor
  · exact ((c9_falsy_defaults _ "what is peace" (some 0) (some 0)).1.trans
      ((c9_falsy_defaults _ "what is peace" (some 0) (some 0)).2.1)).trans
      (((c9_falsy_defaults _ "what is peace" (some 0) (some SEARCH_LIMIT)).2.2.1.trans
        ((c9_falsy_defaults _ "what is peace" (some 0) (some SEARCH_LIMIT)).2.2.2)))
  · rfl

/-- C10: when the scroll behind _get_processed_files fails, the processed
set is empty, every current PDF counts as new, and the whole run behaves
exactly as over an empty scroll result — no store error surfaces from the
dedup step. -/
theorem c10_scroll_failure_fallback (e : String) (split : String → List String)
    (h : String → ℤ) (fails : Nat → Bool) (B : Nat) (docs : List Doc)
    (store0 : Store) :
    processedOf (Except.error e) = [] ∧
    newFiles (Except.error e) docs = currentFiles docs ∧
    process_documents (Except.error e) split h fails B docs store0 =
      process_documents (Except.ok []) split h fails B docs store0 := by
  refine ⟨rfl, ?_, rfl⟩
  unfold newFiles processedOf
  simp

/-- Witness for C10 at a concrete failing scroll and document set. -/
theorem c10_witness :
    process_documents (Except.error "store unreachable") (fun t => [t])
        (fun _ => (0 : ℤ)) (fun _ => false) 8 [⟨"a.pdf", ["hello"]⟩] [] =
      process_documents (Except.ok []) (fun t => [t]) (fun _ => (0 : ℤ))
        (fun _ => false) 8 [⟨"a.pdf", ["hello"]⟩] [] :=
  (c10_scroll_failure_fallback "store unreachable" (fun t => [t]) (fun _ => (0 : ℤ))
    (fun _ => false) 8 [⟨"a.pdf", ["hello"]⟩] []).2.2

/-- C5: for every query with a positive limit L and a nonzero threshold t,
search asks the store for exactly 2 * L candidates at threshold t, returns
the formatted surviving candidates in the order the store returned them,
and the returned sequence has length at most L. -/
theorem c5_overfetch_truncate (st : Nat → ℚ → List ScoredPoint) (q : String)
    (L : Nat) (t : ℚ) (hL : 0 < L) (ht : t ≠ 0) :
    requested_limit (some L) = 2 * L ∧
    search st q (some L) (some t) =
      (((st (2 * L) t).filter (fun r => is_valid_content r.text q)).map
        formatResult).take L ∧
    (search st q (some L) (some t)).length ≤ L := by
  have hn : pyOrNat (some L) SEARCH_LIMIT = L := by
    unfold pyOrNat
    simp [Nat.pos_iff_ne_zero.mp hL]
  have hq : pyOrQ (some t) SIMILARITY_THRESHOLD = t := by
    unfold pyOrQ
    simp [ht]
  have hreq : requested_limit (some L) = 2 * L := by
    unfold requested_limit
    rw [hn, Nat.mul_comm]
  refine ⟨hreq, ?_, ?_⟩
  · rw [search_eq, hreq, hq, hn]
  · rw [search_eq, hn]
    exact (List.length_take _ _).le.trans (Nat.min_le_left _ _)

/-- Witness for C5 at limit 3, threshold one half and the empty store. -/
theorem c5_witness :
    requested_limit (some 3) = 2 * 3 ∧
    search (fun _ _ => []) "q" (some 3) (some (1/2)) = [] ∧
    (search (fun _ _ => []) "q" (some 3) (some (1/2))).length ≤ 3 := by
  have hc := c5_overfetch_truncate (fun _ _ => []) "q" 3 (1/2) (by norm_num) (by norm_num)
  exact ⟨hc.1, hc.2.1.trans rfl, hc.2.2⟩

/-- C8: for non-primary results from one filename with page numbers
2, 3, 4, 7, 8 the display grouping partitions by filename, sorts by page
number, merges the consecutive runs, and yields exactly the group labeled
Pages 2, 3, 4 followed by the group labeled Pages 7, 8, each carrying the
score of its first member. -/
theorem c8_grouping (p : ScoredPoint) (t2 t3 t4 t7 t8 : String)
    (s2 s3 s4 s7 s8 : ℚ) :
    display_groups (p ::
        [⟨s2, t2, "doc.pdf", 2, none⟩, ⟨s3, t3, "doc.pdf", 3, none⟩,
         ⟨s4, t4, "doc.pdf", 4, none⟩, ⟨s7, t7, "doc.pdf", 7, none⟩,
         ⟨s8, t8, "doc.pdf", 8, none⟩]) =
      [⟨"doc.pdf", [2, 3, 4], "Pages 2, 3, 4", s2,
        [⟨s2, t2, "doc.pdf", 2, none⟩, ⟨s3, t3, "doc.pdf", 3, none⟩,
         ⟨s4, t4, "doc.pdf", 4, none⟩]⟩,
       ⟨"doc.pdf", [7, 8], "Pages 7, 8", s7,
        [⟨s7, t7, "doc.pdf", 7, none⟩, ⟨s8, t8, "doc.pdf", 8, none⟩]⟩] := by
  rfl

/-- Witness for C8 at concrete texts and scores. -/
theorem c8_witness :
    display_groups (⟨1, "top", "doc.pdf", 1, none⟩ ::
        [⟨9/10, "a", "doc.pdf", 2, none⟩, ⟨8/10, "b", "doc.pdf", 3, none⟩,
         ⟨7/10, "c", "doc.pdf", 4, none⟩, ⟨6/10, "d", "doc.pdf", 7, none⟩,
         ⟨5/10, "e", "doc.pdf", 8, none⟩]) =
      [⟨"doc.pdf", [2, 3, 4], "Pages 2, 3, 4", 9/10,
        [⟨9/10, "a", "doc.pdf", 2, none⟩, ⟨8/10, "b", "doc.pdf", 3, none⟩,
         ⟨7/10, "c", "doc.pdf", 4, none⟩]⟩,
       ⟨"doc.pdf", [7, 8], "Pages 7, 8", 6/10,
        [⟨6/10, "d", "doc.pdf", 7, none⟩, ⟨5/10, "e", "doc.pdf", 8, none⟩]⟩] :=
  c8_grouping ⟨1, "top", "doc.pdf", 1, none⟩ "a" "b" "c" "d" "e"
    (9/10) (8/10) (7/10) (6/10) (5/10)

/-- C6: every candidate whose stripped text is shorter than 50 characters
or matches one of the boilerplate patterns (page-number-only line,
chapter-number-only line, date stamp, table-of-contents marker, pure
number/dash line, parenthetical-only line) is rejected by
is_valid_content, and every result returned by search is built from a
candidate text that passed is_valid_content. -/
theorem c6_content_validity (text query : String) :
    (((pyStrip text).length < 50 ∨
        matchPageNumber (pyStripList text.toList) = true ∨
        matchChapterNumber (pyStripList text.toList) = true ∨
        matchDateStamp (pyStripList text.toList) = true ∨
        matchToC (pyStripList text.toList) = true ∨
        matchNumDash (pyStripList text.toList) = true ∨
        matchParenOnly (pyStripList text.toList) = true) →
      is_valid_content text query = false) ∧
    ∀ (st : Nat → ℚ → List ScoredPoint) (limit : Option Nat) (thr : Option ℚ)
      (x : CleanResult), x ∈ search st query limit thr →
      ∃ r ∈ st (requested_limit limit) (pyOrQ thr SIMILARITY_THRESHOLD),
        is_valid_content r.text query = true ∧ x = formatResult r := by
  constructor
  · intro hI
    have hcc : contentChecks text = false := by
      unfold contentChecks
      by_cases hlen : (pyStripList text.toList).length < 50
      · rw [if_pos hlen]
      · rw [if_neg hlen]
        have hmm : metadataMatch (pyStripList text.toList) = true := by
          rcases hI with hc | hc | hc | hc | hc | hc | hc
          · exact absurd hc hlen
          all_goals
            unfold metadataMatch
            rw [hc]
            simp
        rw [hmm]
        rfl
    unfold is_valid_content
    by_cases hv : motherVeto query text
    · rw [if_pos hv]
    · rw [if_neg hv]
      exact hcc
  · intro st limit thr x hx
    exact search_mem hx

/-- Witness for C6 at a concrete boilerplate candidate. -/
theorem c6_witness : is_valid_content "Page 217" "anything" = false :=
  (c6_content_validity "Page 217" "anything").1 (Or.inr (Or.inl (by decide)))

/-- C7: for every query mentioning mother case-insensitively, every
candidate text that contains the lowercase word mother but not the exact
form The Mother is rejected, so no search result is built from it; and when
the query does not mention mother the veto never fires —
is_valid_content reduces to the query-independent content checks. -/
theorem c7_disambiguation_veto (query text : String) :
    (containsStr (pyLower query) "mother" = true →
      containsStr text "mother" = true →
      containsStr text "The Mother" = false →
      is_valid_content text query = false) ∧
    (containsStr (pyLower query) "mother" = false →
      is_valid_content text query = contentChecks text) ∧
    ∀ (st : Nat → ℚ → List ScoredPoint) (limit : Option Nat) (thr : Option ℚ)
      (x : CleanResult), containsStr (pyLower query) "mother" = true →
      x ∈ search st query limit thr →
      ∃ r ∈ st (requested_limit limit) (pyOrQ thr SIMILARITY_THRESHOLD),
        x = formatResult r ∧
        (containsStr (pyLower r.text) "mother" = true →
          containsStr r.text "The Mother" = true) := by
  refine ⟨?_, ?_, ?_⟩
  · intro hq hm hnm
    have hlow : containsStr (pyLower text) "mother" = true := by
      have := containsStr_lower hm
      simpa using this
    unfold is_valid_content
    rw [if_pos]
    unfold motherVeto
    simp [hq, hlow, hnm]
  · intro hq
    have hB : containsStr query "The Mother" = false := by
      by_contra hB2
      have hB3 : containsStr query "The Mother" = true := by
        simpa using hB2
      have h4 := containsStr_lower hB3
      have h5 : containsStr (pyLower query) "the mother" = true := by
        simpa using h4
      have h6 := @containsStr_trans (pyLower query) "the mother" "mother"
        (by decide) h5
      exact absurd h6 (by simp [hq])
    unfold is_valid_content
    rw [if_neg]
    unfold motherVeto
    simp [hq, hB]
  · intro st limit thr x hq hx
    obtain ⟨r, hr, hval, hfmt⟩ := search_mem hx
    refine ⟨r, hr, hfmt, ?_⟩
    intro hlow
    have hveto : motherVeto query r.text = false := by
      by_contra hveto2
      have hveto3 : motherVeto query r.text = true := by
        simpa using hveto2
      have : is_valid_content r.text query = false := by
        unfold is_valid_content
        simp [hveto3]
      exact absurd (this ▸ hval) (by simp)
    unfold motherVeto at hveto
    simpa [hq, hlow] using hveto

/-- Witness for C7 at a concrete query and candidate pair. -/
theorem c7_witness :
    is_valid_content
      "She loved her mother with a depth that the long years never dimmed."
      "what did The Mother say about peace" = false :=
  (c7_disambiguation_veto "what did The Mother say about peace"
      "She loved her mother with a depth that the long years never dimmed.").1
    (by decide) (by decide) (by decide)

/-- C1 counterexample: a document set holding a single PDF whose only page
is whitespace-only refutes the claim — the first run stores nothing for
that file, so the second run over the store produced by the first run
computes new_files as the nonempty list a.pdf, not as the empty set. -/
theorem c1_counterexample :
    newFiles
      (Except.ok (scrollStore
        (process_documents (Except.ok []) (fun t => [t]) (fun _ => (0 : ℤ))
          (fun _ => false) 8 [⟨"a.pdf", [" "]⟩] []).2))
      [⟨"a.pdf", [" "]⟩] = ["a.pdf"] := by
  rfl

/-- C1 amended: the document-granularity dedup gate is idempotent provided
every current PDF filename is among the filenames of the scrolled points —
as holds after a first run in which each document contributed at least one
stored point within the 10000-point scroll window; the second run then
computes new as empty, returns 0, and leaves the stored points (and hence
their count) unchanged. -/
theorem c1_idempotent_when_covered (scrollRes : Except String (List Point))
    (split : String → List String) (h : String → ℤ) (fails : Nat → Bool)
    (B : Nat) (docs : List Doc) (s : Store)
    (hcov : ∀ f ∈ currentFiles docs, f ∈ processedOf scrollRes) :
    newFiles scrollRes docs = [] ∧
    process_documents scrollRes split h fails B docs s = (0, s) := by
  have hnew : newFiles scrollRes docs = [] := by
    unfold newFiles
    rw [List.filter_eq_nil_iff]
    intro f hf
    simp [hcov f hf]
  have hps : processState scrollRes split h fails B docs s = ⟨[], 0, s, []⟩ := by
    unfold processState
    rw [if_pos hnew]
  refine ⟨hnew, ?_⟩
  unfold process_documents
  rw [hps]

/-- Witness for C1 amended: a second run over the store of the first run
sees no new files, returns 0 and leaves the store unchanged. -/
theorem c1_witness :
    newFiles (Except.ok (scrollStore c1RunStore)) [⟨"a.pdf", ["hello"]⟩] = [] ∧
    process_documents (Except.ok (scrollStore c1RunStore)) (fun t => [t])
        (fun _ => (0 : ℤ)) (fun _ => false) 8 [⟨"a.pdf", ["hello"]⟩] c1RunStore =
      (0, c1RunStore) :=
  c1_idempotent_when_covered (Except.ok (scrollStore c1RunStore)) (fun t => [t])
    (fun _ => (0 : ℤ)) (fun _ => false) 8 [⟨"a.pdf", ["hello"]⟩] c1RunStore
    (by decide)

/-- C4 counterexample: with BATCH_SIZE 1, one document of two pages and a
failure of the first batch call only, the call log of the run shows the
chunk of the failed first batch submitted again in the second call — the
failed batch is retried later in the same run, not skipped. -/
theorem c4_counterexample :
    (processState (Except.ok []) (fun t => [t]) (fun _ => (0 : ℤ))
        (fun i => decide (i = 0)) 1 [⟨"a.pdf", ["x", "y"]⟩] []).calls =
      [([⟨"x", "a.pdf", 1, 1⟩], false),
       ([⟨"x", "a.pdf", 1, 1⟩], true),
       ([⟨"y", "a.pdf", 2, 1⟩], true)] := by
  rfl

/-- C4 amended: a failed batch call leaves the queue, the counter and the
store untouched (its chunks are retained, not dropped), every chunk of a
failed non-final batch is submitted again in a later batch call of the same
run, and the value returned by process_documents counts exactly the chunks
of the successfully written batches. -/
theorem c4_batch_failure_retained (scrollRes : Except String (List Point))
    (split : String → List String) (h : String → ℤ) (fails : Nat → Bool)
    (B : Nat) (docs : List Doc) (store0 : Store) (st : PState)
    (hst : st = processState scrollRes split h fails B docs store0) :
    (∀ (s : PState) (n : Nat), fails s.calls.length = true →
      (doCall h fails n s).queue = s.queue ∧
      (doCall h fails n s).processed = s.processed ∧
      (doCall h fails n s).store = s.store) ∧
    st.processed = sumSuccessful st.calls ∧
    (process_documents scrollRes split h fails B docs store0).1 =
      sumSuccessful st.calls ∧
    ∀ pre b post, st.calls = pre ++ ((b, false) :: post) → post ≠ [] →
      ∀ ch ∈ b, ∃ e ∈ post, ch ∈ e.1 := by
  subst hst
  refine ⟨fun s n hf => doCall_fail h fails n s hf, ?_, ?_, ?_⟩
  · exact (pinv_processState scrollRes split h fails B docs store0).1
  · exact (pinv_processState scrollRes split h fails B docs store0).1
  · exact fun pre b post heq hpost =>
      resubmission scrollRes split h fails B docs store0 pre b post heq hpost

/-- Witness for C4 amended at the two-page scenario with a failing first
call: the returned count equals the total size of the successful batches. -/
theorem c4_witness :
    (processState (Except.ok []) (fun t => [t]) (fun _ => (0 : ℤ))
        (fun i => decide (i = 0)) 1 [⟨"a.pdf", ["x", "y"]⟩] []).processed =
      sumSuccessful (processState (Except.ok []) (fun t => [t]) (fun _ => (0 : ℤ))
        (fun i => decide (i = 0)) 1 [⟨"a.pdf", ["x", "y"]⟩] []).calls :=
  (c4_batch_failure_retained (Except.ok []) (fun t => [t]) (fun _ => (0 : ℤ))
    (fun i => decide (i = 0)) 1 [⟨"a.pdf", ["x", "y"]⟩] [] _ rfl).2.1

end CwmQna
